import Mathlib

/-!
# RailWiseApi — verification of the core pipeline

Shallow embedding of the RailWiseApi backend (ingest normalisation, loader,
scoring, day-type metrics compute, query service, HTTP retry, window
planner), with theorems settling the specification claims.

Modelling conventions, used throughout:

* Calendar dates are proleptic-Gregorian ordinals (`Nat`, day 1 =
  0001-01-01), exactly Python's `date.toordinal()`.  With this encoding
  Python's `date.weekday()` (Monday = 0) is `(d + 6) % 7` and Postgres
  `EXTRACT(DOW)` (Sunday = 0) is `d % 7`.
* Timestamps are minutes since the epoch of that ordinal scale
  (`ordinal * 1440 + 60 * hour + minute`).  The code constructs and
  compares all timestamps in the single Europe/London zone, modelled
  here as a fixed offset, so datetime comparison and day arithmetic are
  wall-clock arithmetic on these minute counts.
* `HHMM` time-of-day text stored in the database is modelled by its
  numeric value `100 * hour + minute`; lexicographic order on the
  fixed-width four-digit text coincides with numeric order.
* Python floats are modelled as exact rationals (`ℚ`); the float
  operations the code performs on them (`+`, `*`, `/`, comparisons) are
  modelled exactly.
* Python exceptions are modelled with `Except String`; an uncaught
  exception is an `Except.error` value.
* SQL tables are lists of typed rows; queries are list filters in row
  order.
-/

deriving instance DecidableEq for Except

namespace RailWise

/-- Python `date.weekday()`: Monday = 0 … Sunday = 6 (ordinal encoding). -/
def pyWeekday (d : Nat) : Nat := (d + 6) % 7

/-- Postgres `EXTRACT(DOW)`: Sunday = 0 … Saturday = 6 (ordinal encoding). -/
def pgDow (d : Nat) : Nat := d % 7

/-- A Python computation that may raise: `Except.error` models an uncaught
exception carrying its message. -/
abbrev Py (α : Type) := Except String α

/-! ## Calendar (Python `datetime.date.fromisoformat` / `toordinal`) -/

/-- Gregorian leap-year rule. -/
def isLeap (y : Nat) : Bool := (y % 4 == 0 && y % 100 != 0) || y % 400 == 0

/-- Days in month `m` of year `y`. -/
def daysInMonth (y m : Nat) : Nat :=
  if m = 2 then (if isLeap y then 29 else 28)
  else if m = 4 ∨ m = 6 ∨ m = 9 ∨ m = 11 then 30
  else 31

/-- Days in all years strictly before year `y` (proleptic Gregorian). -/
def daysBeforeYear (y : Nat) : Nat :=
  365 * (y - 1) + (y - 1) / 4 - (y - 1) / 100 + (y - 1) / 400

/-- Days in the months of year `y` strictly before month `m`. -/
def daysBeforeMonth (y m : Nat) : Nat :=
  ((List.range (m - 1)).map (fun i => daysInMonth y (i + 1))).sum

/-- Python `date(y, m, d).toordinal()`: 0001-01-01 is ordinal 1. -/
def toOrdinal (y m d : Nat) : Nat := daysBeforeYear y + daysBeforeMonth y m + d

/-- Numeric value of a digit character. -/
def digitVal (c : Char) : Nat := c.toNat - '0'.toNat

/-- Numeric value of a run of digit characters. -/
def digitsVal (cs : List Char) : Nat := cs.foldl (fun acc c => 10 * acc + digitVal c) 0

/-- Python `str.strip()`: whitespace removed from both ends (written
over the character list so that it evaluates by kernel reduction). -/
def pyStrip (s : String) : String :=
  ⟨((s.data.dropWhile Char.isWhitespace).reverse.dropWhile Char.isWhitespace).reverse⟩

/-- Python's empty-string falsiness test (`not s` / `or` fallback). -/
def strEmpty (s : String) : Bool := s.data.isEmpty

/-- Python `str.upper()` (over the character list). -/
def upperStr (s : String) : String := ⟨s.data.map Char.toUpper⟩

/-- Python `s[:n]` (over the character list). -/
def strTake (s : String) (n : Nat) : String := ⟨s.data.take n⟩

/-- Python `date.fromisoformat`: parses strict `YYYY-MM-DD`, raising
`ValueError` on any malformed or out-of-range input; returns the date's
ordinal. -/
def fromisoformat (s : String) : Py Nat :=
  match s.toList with
  | [y1, y2, y3, y4, c1, m1, m2, c2, d1, d2] =>
    if ([y1, y2, y3, y4, m1, m2, d1, d2].all Char.isDigit) ∧ c1 = '-' ∧ c2 = '-' then
      let y := digitsVal [y1, y2, y3, y4]
      let m := digitsVal [m1, m2]
      let d := digitsVal [d1, d2]
      if 1 ≤ y ∧ 1 ≤ m ∧ m ≤ 12 ∧ 1 ≤ d ∧ d ≤ daysInMonth y m then
        .ok (toOrdinal y m d)
      else .error ("ValueError: Invalid isoformat string: " ++ s)
    else .error ("ValueError: Invalid isoformat string: " ++ s)
  | _ => .error ("ValueError: Invalid isoformat string: " ++ s)

/-! ## `app/jobs/ingest/utils/time.py` -/

/-- `hhmm_to_dt` from `app/jobs/ingest/utils/time.py`.  Converts `"HHMM"`
into a timezone-aware timestamp (minutes, see module docstring) on
`service_date` (an ordinal).  Returns `none` for blank input; raises
`ValueError` for non-blank input that is not four digits, and (from the
`datetime` constructor) for an out-of-range hour or minute. -/
def hhmm_to_dt (service_date : Nat) (hhmm : String) : Py (Option Nat) :=
  let s := pyStrip hhmm
  if strEmpty s then .ok none
  else if s.data.length ≠ 4 ∨ ¬ (s.data.all Char.isDigit) then
    .error ("ValueError: Bad HHMM value: " ++ s)
  else
    let h := digitsVal (s.data.take 2)
    let m := digitsVal (s.data.drop 2)
    if 23 < h ∨ 59 < m then .error "ValueError: hour/minute out of range"
    else .ok (some (service_date * 1440 + h * 60 + m))

/-- `roll_if_next_day` from `app/jobs/ingest/utils/time.py`: if the time is
earlier than the departure time, treat it as next day (midnight rollover). -/
def roll_if_next_day (dep : Nat) (maybe : Option Nat) : Option Nat :=
  match maybe with
  | none => none
  | some t => if t < dep then some (t + 1440) else some t

/-! ## `app/jobs/ingest/types.py` and `utils/service_key.py` -/

/-- `make_service_key` from `app/jobs/ingest/utils/service_key.py`.  The
code SHA-1-hashes the `|`-joined payload; the digest is modelled by the
(injective) payload string itself. -/
def make_service_key (origin destination operator service_date sched_dep_iso : String) : String :=
  origin ++ "|" ++ destination ++ "|" ++ operator ++ "|" ++ service_date ++ "|" ++ sched_dep_iso

/-- `CanonicalServiceEvent` from `app/jobs/ingest/types.py`. -/
structure CanonicalServiceEvent where
  source : String
  source_event_id : Option String
  service_date : String
  operator : String
  origin : String
  destination : String
  scheduled_departure_ts : Nat
  scheduled_arrival_ts : Option Nat
  actual_arrival_ts : Option Nat
  cancelled : Bool
  arrival_delay_minutes : Option Int
  service_key : String
deriving DecidableEq, Repr

/-! ## `app/jobs/ingest/sources/hsp/details.py` -/

/-- One entry of the provider's `locations` array.  The code reads each
field with `(row.get(k) or "").strip()`, collapsing absent/None/empty to
the empty string, so absent fields are modelled as `""`. -/
structure LocationRow where
  location : String
  gbtt_ptd : String
  gbtt_pta : String
  actual_ta : String
deriving DecidableEq, Repr

/-- The provider's `serviceAttributesDetails` object (absent fields
modelled as `""` / `[]`, as the code's `or`-defaults produce). -/
structure ServiceAttributesDetails where
  date_of_service : String
  toc_code : String
  locations : List LocationRow
deriving DecidableEq, Repr

/-- Python falsy-`or` on stripped strings: an empty string falls back. -/
def orElseStr (a b : String) : String := if strEmpty a then b else a

/-- `details_to_event` from `app/jobs/ingest/sources/hsp/details.py`.
`service_templates` models the Python dict via `dict.get(rid, ("","",""))`
as a total function rid ↦ (gbtt_ptd, gbtt_pta, toc_code).  Returns
`ok none` for a skipped record, `ok (some ev)` for a normalised event,
and `error` when the Python code would raise. -/
def details_to_event (rid : String) (data : ServiceAttributesDetails)
    (from_loc to_loc : String)
    (service_templates : String → String × String × String) :
    Py (Option CanonicalServiceEvent) :=
  let dos := pyStrip data.date_of_service
  if strEmpty dos then .ok none
  else
    match fromisoformat dos with
    | .error e => .error e
    | .ok service_date =>
      let toc := orElseStr (pyStrip data.toc_code) (service_templates rid).2.2
      match data.locations.find? (fun x => x.location = from_loc),
            data.locations.find? (fun x => x.location = to_loc) with
      | none, _ => .ok none
      | some _, none => .ok none
      | some origin_row, some dest_row =>
        let gbtt_ptd := orElseStr (pyStrip origin_row.gbtt_ptd) (service_templates rid).1
        let gbtt_pta := orElseStr (pyStrip dest_row.gbtt_pta) (service_templates rid).2.1
        match hhmm_to_dt service_date gbtt_ptd with
        | .error e => .error e
        | .ok none => .ok none
        | .ok (some sched_dep) =>
          match hhmm_to_dt service_date gbtt_pta with
          | .error e => .error e
          | .ok pta =>
            let sched_arr := roll_if_next_day sched_dep pta
            let actual_ta := pyStrip dest_row.actual_ta
            match hhmm_to_dt service_date actual_ta with
            | .error e => .error e
            | .ok ta =>
              let act_arr := roll_if_next_day sched_dep ta
              let cancelled := act_arr.isNone
              let delay_min : Option Int :=
                match act_arr, sched_arr with
                | some a, some sa => if cancelled then none else some ((a : Int) - (sa : Int))
                | _, _ => none
              .ok (some
                { source := "hsp"
                  source_event_id := some rid
                  service_date := dos
                  operator := toc
                  origin := from_loc
                  destination := to_loc
                  scheduled_departure_ts := sched_dep
                  scheduled_arrival_ts := sched_arr
                  actual_arrival_ts := act_arr
                  cancelled := cancelled
                  arrival_delay_minutes := delay_min
                  service_key := make_service_key from_loc to_loc toc dos (toString sched_dep) })

/-! ## `app/jobs/ingest/loader.py` -/

/-- One row of the `raw_service_events` table, with the columns
`load_events` inserts. -/
structure RawServiceEvent where
  service_date : String
  operator : String
  origin : String
  destination : String
  scheduled_departure_ts : Nat
  scheduled_arrival_ts : Option Nat
  actual_arrival_ts : Option Nat
  cancelled : Bool
  arrival_delay_minutes : Option Int
  service_key : String
  source_run_id : Nat
  sourced : String
deriving DecidableEq, Repr

/-- The `INSERT … ON CONFLICT (service_key) DO NOTHING RETURNING id`
statement: appends the row unless a row with the same `service_key`
exists; returns the new row's id (`RETURNING`) or `none` on conflict. -/
def insertOnConflictDoNothing (tbl : List RawServiceEvent) (ev : RawServiceEvent) :
    List RawServiceEvent × Option Nat :=
  if tbl.any (fun r => r.service_key = ev.service_key) then (tbl, none)
  else (tbl ++ [ev], some (tbl.length + 1))

/-- The loader's `row == 1` test, where `row` is `res.fetchone()`: a
SQLAlchemy `Row` (which compares like a tuple) or `None`.  In Python
neither a `Row` nor `None` ever equals the integer `1`, so the
comparison is identically `False`. -/
def rowEqOne : Option Nat → Bool := fun _ => false

/-- The counts dict returned by `load_events`. -/
structure LoadCounts where
  total : Nat
  inserted : Nat
  skipped : Nat
deriving DecidableEq, Repr

/-- The row `load_events` builds from a canonical event. -/
def toRawRow (ev : CanonicalServiceEvent) (source_run_id : Nat) : RawServiceEvent :=
  { service_date := ev.service_date
    operator := ev.operator
    origin := ev.origin
    destination := ev.destination
    scheduled_departure_ts := ev.scheduled_departure_ts
    scheduled_arrival_ts := ev.scheduled_arrival_ts
    actual_arrival_ts := ev.actual_arrival_ts
    cancelled := ev.cancelled
    arrival_delay_minutes := ev.arrival_delay_minutes
    service_key := ev.service_key
    source_run_id := source_run_id
    sourced := ev.source }

/-- `load_events` from `app/jobs/ingest/loader.py`: per-event
`INSERT … ON CONFLICT DO NOTHING`, counting via `if row == 1` on the
fetched `RETURNING` row; batch commits every 1000 events and a final
commit (commits do not change the visible table contents here, since the
run never fails mid-batch in this function).  Returns the final table
and the counts dict. -/
def load_events (tbl : List RawServiceEvent) (events : List CanonicalServiceEvent)
    (source_run_id : Nat) : List RawServiceEvent × LoadCounts :=
  let fin := events.foldl
    (fun (acc : List RawServiceEvent × Nat × Nat) ev =>
      let (t, inserted, skipped) := acc
      let (t, row) := insertOnConflictDoNothing t (toRawRow ev source_run_id)
      if rowEqOne row then (t, inserted + 1, skipped)
      else (t, inserted, skipped + 1))
    (tbl, 0, 0)
  (fin.1, { total := events.length, inserted := fin.2.1, skipped := fin.2.2 })

/-! ## `app/scoring/v1/slot_metrics.py` -/

/-- `WeightedCounts` from `app/scoring/v1/slot_metrics.py`. -/
structure WeightedCounts where
  w_services : ℚ
  w_cancelled : ℚ
  w_disrupted : ℚ
deriving DecidableEq, Repr

/-- `SlotMetricComputed` from `app/scoring/v1/slot_metrics.py`. -/
structure SlotMetricComputed where
  disruption_prob : ℚ
  cancellation_prob : ℚ
  reliability_score : ℤ
  effective_sample_size : ℚ
  confidence_band : String
deriving DecidableEq, Repr

/-- `min(max(x, 0.0), 1.0)`. -/
def clamp01 (x : ℚ) : ℚ := min (max x 0) 1

/-- Python's `round()`: round half to even (banker's rounding). -/
def pyRound (x : ℚ) : ℤ :=
  if Int.fract x = 1 / 2 then (if ⌊x⌋ % 2 = 0 then ⌊x⌋ else ⌊x⌋ + 1)
  else round x

/-- `beta_binomial_smooth` from `app/scoring/v1/slot_metrics.py`: with
`trials ≤ 0` returns `prior_p` clamped to `[0, 1]`; otherwise clamps
`prior_p` to `[0, 1]` and `prior_strength` to `≥ 0` and returns the
posterior mean `(alpha + successes) / (alpha + beta + trials)`. -/
def beta_binomial_smooth (successes trials prior_p prior_strength : ℚ) : ℚ :=
  if trials ≤ 0 then clamp01 prior_p
  else
    let pp := clamp01 prior_p
    let ps := max prior_strength 0
    let alpha := pp * ps
    let beta := (1 - pp) * ps
    (alpha + successes) / (alpha + beta + trials)

/-- `confidence_band` from `app/scoring/v1/slot_metrics.py`. -/
def confidence_band (effective_sample_size : ℚ) : String :=
  if 20 ≤ effective_sample_size then "high"
  else if 8 ≤ effective_sample_size then "medium"
  else "low"

/-- `compute_slot_metric` from `app/scoring/v1/slot_metrics.py`. -/
def compute_slot_metric (w_counts : WeightedCounts)
    (operator_prior_disruption operator_prior_cancel prior_strength : ℚ) :
    SlotMetricComputed :=
  let n_eff := w_counts.w_services
  let p_disruption :=
    beta_binomial_smooth w_counts.w_disrupted w_counts.w_services
      operator_prior_disruption prior_strength
  let p_cancel :=
    beta_binomial_smooth w_counts.w_cancelled w_counts.w_services
      operator_prior_cancel prior_strength
  let score := pyRound (100 * (1 - p_disruption))
  let score := max 0 (min 100 score)
  { disruption_prob := p_disruption
    cancellation_prob := p_cancel
    reliability_score := score
    effective_sample_size := n_eff
    confidence_band := RailWise.confidence_band n_eff }

/-! ## Day-type conventions -/

/-- `day_type_for_date` from `app/api/v1/routes/reliability.py`
(Python weekday: Monday = 0 … Sunday = 6).  Takes the date's ordinal. -/
def day_type_for_date (d : Nat) : String :=
  let wd := pyWeekday d
  if wd ≤ 4 then "WEEKDAY"
  else if wd = 5 then "SATURDAY"
  else "SUNDAY"

/-- `dow_to_day_type` from
`app/jobs/compute_slot_metrics/compute_slot_metrics_daytype.py`
(Postgres `EXTRACT(DOW)`: Sunday = 0 … Saturday = 6). -/
def dow_to_day_type (dow : Int) : String :=
  if 1 ≤ dow ∧ dow ≤ 5 then "WEEKDAY"
  else if dow = 6 then "SATURDAY"
  else "SUNDAY"

/-! ## `app/jobs/compute_slot_metrics/compute_slot_metrics_daytype.py` —
transactional skeleton

The session state tracks, for the `slot_metrics_daytype` table, the rows
already committed and the rows written but not yet committed, plus the
Job Ledger (`job_runs`) row of the current run in the same committed /
pending form.  `db.commit()` flushes pending state; `db.rollback()`
discards it.  The metric rows the loop upserts are abstracted to an
arbitrary type `α` (their values are the subject of the scoring
theorems; here only the write/commit/rollback order matters). -/

/-- Job Ledger status values. -/
inductive JobStatus
  | running
  | success
  | fail
deriving DecidableEq, Repr

/-- Session state: committed and pending (uncommitted) metric rows, and
the committed / pending Job Ledger status of this run. -/
structure MetricsDb (α : Type) where
  committed : List α
  pending : List α
  ledger : Option JobStatus
  ledgerPending : Option JobStatus
deriving DecidableEq, Repr

/-- `db.commit()`: pending writes become durable. -/
def dbCommit {α : Type} (db : MetricsDb α) : MetricsDb α :=
  { committed := db.committed ++ db.pending
    pending := []
    ledger := match db.ledgerPending with
      | some s => some s
      | none => db.ledger
    ledgerPending := none }

/-- `db.rollback()`: pending writes are discarded. -/
def dbRollback {α : Type} (db : MetricsDb α) : MetricsDb α :=
  { db with pending := [], ledgerPending := none }

/-- `db.execute(_UPSERT_METRICS, …)`: the upsert joins the uncommitted
writes of the transaction. -/
def dbExecuteUpsert {α : Type} (db : MetricsDb α) (row : α) : MetricsDb α :=
  { db with pending := db.pending ++ [row] }

/-- `_start_job`: add the ledger row with status `running` and commit. -/
def startJob {α : Type} (db : MetricsDb α) : MetricsDb α :=
  dbCommit { db with ledgerPending := some .running }

/-- `_finish_job`: set the ledger row's status and commit. -/
def finishJob {α : Type} (db : MetricsDb α) (status : JobStatus) : MetricsDb α :=
  dbCommit { db with ledgerPending := some status }

/-- The per-slot write loop of `compute_slot_metrics_daytype`: upsert one
row per group, count `slots_written`, and batch-commit every 500 rows
when `commitFlag` is set.  `failAt = some k` injects an uncaught
exception while the k-th group (1-based) is being processed, before its
write; the returned flag reports whether the exception was raised. -/
def daytypeWriteLoop {α : Type} (commitFlag : Bool) (failAt : Option Nat) :
    List α → Nat → MetricsDb α → MetricsDb α × Nat × Bool
  | [], written, db => (db, written, false)
  | g :: gs, written, db =>
    if failAt = some (written + 1) then (db, written, true)
    else
      let db := dbExecuteUpsert db g
      let written := written + 1
      let db := if commitFlag ∧ written % 500 = 0 then dbCommit db else db
      daytypeWriteLoop commitFlag failAt gs written db

/-- Run outcome: the final session state and either the number of slots
written (success) or the re-raised exception. -/
structure RunOutcome (α : Type) where
  db : MetricsDb α
  result : Except String Nat
deriving Repr

/-- `compute_slot_metrics_daytype` (transactional skeleton): start the
Job Ledger record, run the batched write loop over the slot groups, and
either commit and record success, or — on any uncaught error — roll
back, record the failure in the ledger, and re-raise.  `groups` are the
slot groups the run upserts (empty when the window holds no rows, in
which case the run succeeds with zero writes). -/
def compute_slot_metrics_daytype {α : Type} (commitFlag : Bool) (groups : List α)
    (failAt : Option Nat) : RunOutcome α :=
  let db0 : MetricsDb α :=
    { committed := [], pending := [], ledger := none, ledgerPending := none }
  let db1 := startJob db0
  let res := daytypeWriteLoop commitFlag failAt groups 0 db1
  let db2 := res.1
  let written := res.2.1
  let raised := res.2.2
  if raised then
    let db3 := dbRollback db2
    let db4 := finishJob db3 .fail
    { db := db4, result := .error "exception" }
  else
    let db3 := if commitFlag then dbCommit db2 else db2
    let db4 := finishJob db3 .success
    { db := db4, result := .ok written }

/-! ## `app/jobs/ingest/sources/hsp/config.py` and `http.py` -/

/-- `HspConfig` fields the modelled code paths read (`config.py` also
carries credentials, URLs and timeout values consumed by the HTTP
client construction, which has no behaviour to verify here). -/
structure HspConfig where
  metrics_window_minutes : Nat
  metrics_filter_weekdays : Bool
  retries : Nat
  backoff_base : ℚ
deriving DecidableEq, Repr

/-- `RETRY_STATUSES` from `app/jobs/ingest/sources/hsp/http.py`. -/
def RETRY_STATUSES : List Nat := [429, 502, 503, 504, 520, 522, 524]

/-- What one attempt's `client.post` produces: a response with a status
and body, a connect or read timeout, or some other request failure. -/
inductive AttemptOutcome
  | resp (status : Nat) (body : String)
  | connectTimeout
  | readTimeout
  | otherFailure
deriving DecidableEq, Repr

/-- The error a request run surfaces: an `HTTPStatusError` (with the
response body truncated to the 300-character diagnostic snippet the code
logs), a timeout, or another exception. -/
inductive ReqError
  | httpStatus (status : Nat) (snippet : String)
  | timeout
  | other
deriving DecidableEq, Repr

/-- The error stored in `last_err` for a failed retryable attempt. -/
def attemptErr : AttemptOutcome → ReqError
  | .resp s body => .httpStatus s (strTake body 300)
  | .connectTimeout => .timeout
  | .readTimeout => .timeout
  | .otherFailure => .other

/-- `httpx.Response.is_success`: a 2xx status. -/
def is2xx (s : Nat) : Bool := decide (200 ≤ s ∧ s < 300)

/-- Outcomes the retry loop absorbs and retries: a response with a
status in `RETRY_STATUSES`, a connect/read timeout, or (the code's
blanket `except Exception`) any other request failure. -/
def retriesOn : AttemptOutcome → Bool
  | .resp s _ => s ∈ RETRY_STATUSES
  | .connectTimeout => true
  | .readTimeout => true
  | .otherFailure => true

/-- The duration `sleep_backoff` (from `http.py`) sleeps before the next
attempt: `backoff_base * 2^(attempt-1)` seconds plus the drawn jitter
(in the code `random.uniform(0, 0.5)`, supplied here as an oracle). -/
def sleep_backoff_duration (cfg : HspConfig) (attempt : Nat) (jitter : ℚ) : ℚ :=
  cfg.backoff_base * 2 ^ (attempt - 1) + jitter

/-- Trace of one `post_with_retry` run: the backoff sleeps performed, in
order, and the result — the parsed body on success, or the raised error
(`error none` models `raise last_err` with no attempt ever made, i.e.
`retries = 0`). -/
structure RetryTrace where
  sleeps : List ℚ
  result : Except (Option ReqError) String
deriving Repr

/-- The attempt loop of `post_with_retry` (from `http.py`):
* a response with a retryable status raises an internal
  `HTTPStatusError`, caught and absorbed (becoming `last_err`);
* a 2xx response returns its parsed body;
* any other non-2xx response raises immediately (no retry, no sleep);
* connect/read timeouts and other failures are absorbed;
* every absorbed failure sleeps `sleep_backoff` and moves to the next
  attempt; after the last attempt the loop exits and `last_err` is
  raised.
`outcomes a` is attempt `a`'s network outcome and `jitter a` its drawn
jitter; `remaining` counts attempts still allowed. -/
def postAttempts (cfg : HspConfig) (outcomes : Nat → AttemptOutcome) (jitter : Nat → ℚ) :
    Nat → Nat → Option ReqError → RetryTrace
  | 0, _, lastErr => { sleeps := [], result := .error lastErr }
  | remaining + 1, attempt, _ =>
    let absorb := fun (e : ReqError) =>
      let t := postAttempts cfg outcomes jitter remaining (attempt + 1) (some e)
      { sleeps := sleep_backoff_duration cfg attempt (jitter attempt) :: t.sleeps
        result := t.result }
    match outcomes attempt with
    | .resp s body =>
      if s ∈ RETRY_STATUSES then absorb (.httpStatus s (strTake body 300))
      else if is2xx s then { sleeps := [], result := .ok body }
      else { sleeps := [], result := .error (some (.httpStatus s (strTake body 300))) }
    | .connectTimeout => absorb .timeout
    | .readTimeout => absorb .timeout
    | .otherFailure => absorb .other

/-- `post_with_retry` from `http.py`: up to `cfg.retries` attempts,
starting at attempt 1 with no `last_err`. -/
def post_with_retry (cfg : HspConfig) (outcomes : Nat → AttemptOutcome)
    (jitter : Nat → ℚ) : RetryTrace :=
  postAttempts cfg outcomes jitter cfg.retries 1 none

/-! ## `app/jobs/ingest/sources/hsp/metrics.py` — window planner -/

/-- The `while cur < end` loop of `time_windows`, on minutes of day,
with explicit fuel (structural recursion so the function evaluates by
kernel reduction).  Each iteration with a positive step advances `cur`
by at least one minute, so fuel `toM - cur` is exactly enough; the
Python loop does not terminate for `step_minutes ≤ 0`, and the model is
defined (empty) there — every theorem assumes a positive step. -/
def timeWindowsGo (toM step : Nat) : Nat → Nat → List (Nat × Nat)
  | 0, _ => []
  | fuel + 1, cur =>
    if cur < toM ∧ 0 < step then
      let nxt := min (cur + step) toM
      (cur, nxt) :: timeWindowsGo toM step fuel nxt
    else []

/-- `time_windows` from `metrics.py`: `[start, end]` HHMM windows
stepping by `step_minutes`, on the minute values of the parsed HHMM
strings (`parse_hhmm` / `fmt_hhmm` are the text round-trip). -/
def time_windows (fromM toM step : Nat) : List (Nat × Nat) :=
  timeWindowsGo toM step (toM - fromM) fromM

/-- `date_range` from `metrics.py`, on date ordinals: all days from
`from_date` to `to_date` inclusive. -/
def date_range (d0 d1 : Nat) : List Nat :=
  (List.range (d1 + 1 - d0)).map (fun i => d0 + i)

/-- `weekday_only` from `metrics.py`: keep Monday–Friday dates
(Python `weekday() < 5`). -/
def weekday_only (dates : List Nat) : List Nat :=
  dates.filter (fun s => pyWeekday s < 5)

/-- The chunk plan of `fetch_service_metrics_chunked` (from
`metrics.py`): the ordered (date, time-window) requests it issues —
dates of the range (weekday-filtered when configured and the target
day-type is `"WEEKDAY"`), each crossed with the time windows. -/
def fetch_service_metrics_chunked_plan (cfg : HspConfig) (from_date to_date : Nat)
    (fromM toM : Nat) (days : String) : List (Nat × Nat × Nat) :=
  let dates := date_range from_date to_date
  let dates :=
    if cfg.metrics_filter_weekdays ∧ upperStr days = "WEEKDAY" then weekday_only dates
    else dates
  let windows := time_windows fromM toM cfg.metrics_window_minutes
  dates.flatMap (fun d => windows.map (fun w => (d, w.1, w.2)))

/-! ## `app/api/v1/routes/reliability.py` — QueryService

Inputs arrive already validated/parsed by the transport layer (the 400
paths reject unparseable text before any logic runs): `d` is the target
date's ordinal, `arrive_minutes` the minute-of-day of `arrive_by`.
`current_date` models SQL `CURRENT_DATE`. -/

/-- One row of `daily_slot_agg` (`app/models/daily_slot_agg.py`), fields
the query and compute jobs read. -/
structure AggRow where
  service_date : Nat
  operator : String
  origin : String
  destination : String
  dep_hhmm : Nat
  day_of_week : Nat
  n_services : Nat
  n_cancelled : Nat
  n_disrupted : Nat
deriving DecidableEq, Repr

/-- One row of `slot_metrics_daytype` (`app/models/slot_metrics_daytype.py`). -/
structure MetricRow where
  metric_date : Nat
  model_version : String
  operator : String
  origin : String
  destination : String
  day_type : String
  dep_hhmm : Nat
  disruption_prob : ℚ
  cancellation_prob : ℚ
  reliability_score : ℤ
  effective_sample_size : ℚ
  confidence_band : String
deriving DecidableEq, Repr

/-- `DepartureReliability` response schema
(`app/api/v1/schemas/reliability.py`). -/
structure DepartureReliability where
  departure_time : Nat
  dep_hhmm : Nat
  operator : Option String
  disruption_prob : ℚ
  cancellation_prob : ℚ
  reliability_score : ℤ
  effective_sample_size : ℚ
  confidence_band : String
  coverage : String
deriving DecidableEq, Repr

/-- `dow_filter_sql` from `reliability.py`, as a row predicate on
`daily_slot_agg.day_of_week` (Postgres DOW, 0 = Sunday). -/
def dow_filter (day_type : String) (dow : Nat) : Bool :=
  if day_type = "WEEKDAY" then decide (1 ≤ dow ∧ dow ≤ 5)
  else if day_type = "SATURDAY" then decide (dow = 6)
  else decide (dow = 0)

/-- `((:operator)::text IS NULL OR operator = (:operator)::text)`. -/
def operatorMatches (operator : Option String) (rowOperator : String) : Bool :=
  match operator with
  | none => true
  | some op => rowOperator = op

/-- `int(hhmm[:2]), int(hhmm[2:])` on the numeric HHMM model: minutes of
day of a departure time-of-day. -/
def hhmmToMinutes (hhmm : Nat) : Nat := (hhmm / 100) * 60 + hhmm % 100

/-- The candidate query's WHERE clause over `daily_slot_agg`: corridor,
trailing 90 days, target day-type's day-of-week filter, optional
operator filter. -/
def candidateAggRows (db_agg : List AggRow) (current_date : Nat)
    (from_loc to_loc : String) (operator : Option String) (day_type : String) :
    List AggRow :=
  db_agg.filter (fun r =>
    r.origin = from_loc ∧ r.destination = to_loc ∧
    current_date - 90 ≤ r.service_date ∧
    dow_filter day_type r.day_of_week ∧
    operatorMatches operator r.operator)

/-- The candidate query's `GROUP BY dep_hhmm HAVING SUM(n_services) >=
:min_services ORDER BY dep_hhmm`: distinct departure HHMMs in ascending
order whose summed service count meets the threshold. -/
def dep_hhmms (db_agg : List AggRow) (current_date : Nat)
    (from_loc to_loc : String) (operator : Option String) (day_type : String)
    (min_services : Nat) : List Nat :=
  let rows := candidateAggRows db_agg current_date from_loc to_loc operator day_type
  let keys := List.insertionSort (fun a b => a ≤ b) ((rows.map (fun r => r.dep_hhmm)).dedup)
  keys.filter (fun k =>
    min_services ≤ ((rows.filter (fun r => r.dep_hhmm = k)).map (fun r => r.n_services)).sum)

/-- The departure timestamp on the target date for a candidate HHMM:
`LONDON.localize(datetime.combine(d, dep_time))`, in minutes. -/
def depDt (d : Nat) (hhmm : Nat) : Nat := d * 1440 + hhmmToMinutes hhmm

/-- The time-window filter: keep candidates whose localized timestamp on
the target date lies in `[arrive_by - window_minutes, arrive_by]`. -/
def filtered_hhmms (db_agg : List AggRow) (current_date : Nat)
    (from_loc to_loc : String) (operator : Option String) (day_type : String)
    (min_services : Nat) (d : Nat) (arrive_minutes : Nat) (window_minutes : Nat) :
    List Nat :=
  let arrive_dt : Int := (d : Int) * 1440 + arrive_minutes
  let window_start : Int := arrive_dt - window_minutes
  (dep_hhmms db_agg current_date from_loc to_loc operator day_type min_services).filter
    (fun k => window_start ≤ (depDt d k : Int) ∧ (depDt d k : Int) ≤ arrive_dt)

/-- The slot-metric query's WHERE clause over `slot_metrics_daytype` for
the filtered candidates at the selected `metric_date`. -/
def slotMetricRows (db_metrics : List MetricRow) (metric_date : Nat)
    (from_loc to_loc : String) (day_type : String) (operator : Option String)
    (hhmms : List Nat) : List MetricRow :=
  db_metrics.filter (fun r =>
    r.metric_date = metric_date ∧ r.model_version = "v1_daytype" ∧
    r.origin = from_loc ∧ r.destination = to_loc ∧ r.day_type = day_type ∧
    operatorMatches operator r.operator ∧ r.dep_hhmm ∈ hhmms)

/-- `by_hhmm = {r["dep_hhmm"]: r for r in rows}` then `.get(hhmm)`: the
dict comprehension keeps the last row per key in result order. -/
def by_hhmm_get (rows : List MetricRow) (hhmm : Nat) : Option MetricRow :=
  (rows.filter (fun r => r.dep_hhmm = hhmm)).getLast?

/-- The baseline query's WHERE clause: all metric rows for the
(origin, destination, day_type[, operator]) combination at the selected
`metric_date`. -/
def baselineRows (db_metrics : List MetricRow) (metric_date : Nat)
    (from_loc to_loc : String) (day_type : String) (operator : Option String) :
    List MetricRow :=
  db_metrics.filter (fun r =>
    r.metric_date = metric_date ∧ r.model_version = "v1_daytype" ∧
    r.origin = from_loc ∧ r.destination = to_loc ∧ r.day_type = day_type ∧
    operatorMatches operator r.operator)

/-- SQL `AVG` over a nonempty list (NULL for an empty one), composed
with the route's `float(x or 0.0)`. -/
def sqlAvgOrZero (xs : List ℚ) : ℚ :=
  if xs.isEmpty then 0 else xs.sum / xs.length

/-- "Has a slot-level metric row for candidate `k` at the selected
metric date": the row predicate of the slot-metric query specialised to
one departure HHMM. -/
def metricMatches (metric_date : Nat) (from_loc to_loc day_type : String)
    (operator : Option String) (k : Nat) (r : MetricRow) : Bool :=
  r.metric_date = metric_date ∧ r.model_version = "v1_daytype" ∧
  r.origin = from_loc ∧ r.destination = to_loc ∧ r.day_type = day_type ∧
  operatorMatches operator r.operator ∧ r.dep_hhmm = k

/-- `get_reliability` from `app/api/v1/routes/reliability.py` (logic
after input parsing): determine the day type, select the latest
`metric_date` (a hard 500 error when none exists), list candidate
departures, window-filter them, and build one response entry per
filtered candidate — the slot metric row where one exists, else the
baseline average with zero effective sample size. -/
def get_reliability (db_agg : List AggRow) (db_metrics : List MetricRow)
    (current_date : Nat) (from_loc to_loc : String) (d : Nat)
    (arrive_minutes : Nat) (operator : Option String)
    (window_minutes : Nat) (min_services : Nat) :
    Except String (List DepartureReliability) :=
  let day_type := day_type_for_date d
  match (db_metrics.map (fun r => r.metric_date)).max? with
  | none => .error "No slot_metrics_daytype found. Run compute job."
  | some metric_date =>
    let fhhmms := filtered_hhmms db_agg current_date from_loc to_loc operator day_type
      min_services d arrive_minutes window_minutes
    let rows := slotMetricRows db_metrics metric_date from_loc to_loc day_type operator fhhmms
    let brows := baselineRows db_metrics metric_date from_loc to_loc day_type operator
    let baseline_disruption := sqlAvgOrZero (brows.map (fun r => r.disruption_prob))
    let baseline_cancel := sqlAvgOrZero (brows.map (fun r => r.cancellation_prob))
    let baseline_score := pyRound (100 * (1 - baseline_disruption))
    .ok (fhhmms.map (fun hhmm =>
      match by_hhmm_get rows hhmm with
      | some m =>
        { departure_time := depDt d hhmm
          dep_hhmm := hhmm
          operator := some m.operator
          disruption_prob := m.disruption_prob
          cancellation_prob := m.cancellation_prob
          reliability_score := m.reliability_score
          effective_sample_size := m.effective_sample_size
          confidence_band := m.confidence_band
          coverage := "slot" }
      | none =>
        { departure_time := depDt d hhmm
          dep_hhmm := hhmm
          operator := operator
          disruption_prob := baseline_disruption
          cancellation_prob := baseline_cancel
          reliability_score := baseline_score
          effective_sample_size := 0
          confidence_band := "low"
          coverage := "baseline_fallback" }))

/-! ## Concrete fixtures used by witnesses and counterexamples -/

/-- The empty `service_templates` dict (`dict.get(rid, ("","",""))`). -/
def tmpl0 : String → String × String × String := fun _ => ("", "", "")

/-- A canonical event used to exercise the loader. -/
def sampleEvent : CanonicalServiceEvent :=
  { source := "hsp"
    source_event_id := some "202401018005"
    service_date := "2024-01-01"
    operator := "GW"
    origin := "RDG"
    destination := "PAD"
    scheduled_departure_ts := 738886 * 1440 + 8 * 60 + 10
    scheduled_arrival_ts := some (738886 * 1440 + 8 * 60 + 35)
    actual_arrival_ts := some (738886 * 1440 + 8 * 60 + 40)
    cancelled := false
    arrival_delay_minutes := some 5
    service_key := "RDG|PAD|GW|2024-01-01|1063996570" }

/-- A provider record whose service crosses midnight: departure 23:50,
scheduled arrival 00:10, actual arrival 00:20 (next day). -/
def rolloverRecord : ServiceAttributesDetails :=
  { date_of_service := "0001-01-01"
    toc_code := "GW"
    locations := [
      { location := "RDG", gbtt_ptd := "2350", gbtt_pta := "", actual_ta := "" },
      { location := "PAD", gbtt_ptd := "", gbtt_pta := "0010", actual_ta := "0020" } ] }

/-- The event the normaliser produces for `rolloverRecord`: both
arrivals are rolled one day forward past the 23:50 departure
(minutes 2870), and the delay is 10 minutes. -/
def rolloverEvent : CanonicalServiceEvent :=
  { source := "hsp"
    source_event_id := some "rid1"
    service_date := "0001-01-01"
    operator := "GW"
    origin := "RDG"
    destination := "PAD"
    scheduled_departure_ts := 2870
    scheduled_arrival_ts := some 2890
    actual_arrival_ts := some 2900
    cancelled := false
    arrival_delay_minutes := some 10
    service_key := "RDG|PAD|GW|0001-01-01|2870" }

/-- A provider record for the requested corridor whose scheduled
departure field is present but malformed (`"08X0"` is non-blank and not
four digits). -/
def badPtdRecord : ServiceAttributesDetails :=
  { date_of_service := "0001-01-01"
    toc_code := "GW"
    locations := [
      { location := "RDG", gbtt_ptd := "08X0", gbtt_pta := "", actual_ta := "" },
      { location := "PAD", gbtt_ptd := "", gbtt_pta := "0900", actual_ta := "0905" } ] }

/-- The `last_err` value after absorbing `j` consecutive retryable
failures starting at `attempt`. -/
def lastErrAfter (outcomes : Nat → AttemptOutcome) (attempt j : Nat)
    (lastErr : Option ReqError) : Option ReqError :=
  if j = 0 then lastErr else some (attemptErr (outcomes (attempt + j - 1)))

/-- A record with a blank service date. -/
def recBlankDate : ServiceAttributesDetails :=
  { date_of_service := "  ", toc_code := "GW", locations := [] }

/-- A record with a valid date but no rows for the requested corridor. -/
def recNoCorridor : ServiceAttributesDetails :=
  { date_of_service := "0001-01-01", toc_code := "GW"
    locations := [ { location := "BRI", gbtt_ptd := "0800", gbtt_pta := "", actual_ta := "" } ] }

/-- A record whose corridor rows exist but whose scheduled departure
resolves to blank (no detail value, no template fallback). -/
def recBlankDep : ServiceAttributesDetails :=
  { date_of_service := "0001-01-01", toc_code := "GW"
    locations := [
      { location := "RDG", gbtt_ptd := "", gbtt_pta := "", actual_ta := "" },
      { location := "PAD", gbtt_ptd := "", gbtt_pta := "0900", actual_ta := "0905" } ] }

/-- Rollup rows for the spec's query scenario: candidates 08:10 and
08:40 on corridor RDG→PAD, both meeting the service threshold. -/
def queryScenarioAgg : List AggRow := [
  { service_date := 5, operator := "GW", origin := "RDG", destination := "PAD",
    dep_hhmm := 810, day_of_week := 1, n_services := 10, n_cancelled := 0, n_disrupted := 1 },
  { service_date := 5, operator := "GW", origin := "RDG", destination := "PAD",
    dep_hhmm := 840, day_of_week := 1, n_services := 10, n_cancelled := 0, n_disrupted := 2 } ]

/-- Metric rows for the scenario: a slot-level row for 08:10 only. -/
def queryScenarioMetrics : List MetricRow := [
  { metric_date := 50, model_version := "v1_daytype", operator := "GW", origin := "RDG",
    destination := "PAD", day_type := "WEEKDAY", dep_hhmm := 810, disruption_prob := 1/10,
    cancellation_prob := 1/20, reliability_score := 90, effective_sample_size := 12,
    confidence_band := "medium" } ]

/-- The response for the scenario (arrive by 09:00, window 60): the
08:10 slot entry and the 08:40 baseline-fallback entry, in departure
order. -/
def queryScenarioOut : List DepartureReliability := [
  { departure_time := 12010, dep_hhmm := 810, operator := some "GW",
    disruption_prob := 1/10, cancellation_prob := 1/20, reliability_score := 90,
    effective_sample_size := 12, confidence_band := "medium", coverage := "slot" },
  { departure_time := 12040, dep_hhmm := 840, operator := none,
    disruption_prob := 1/10, cancellation_prob := 1/20, reliability_score := 90,
    effective_sample_size := 0, confidence_band := "low", coverage := "baseline_fallback" } ]

/-! ## Theorems -/


/-- C1 (status: code_bug) — evaluation of `load_events` at the failing
input.  The storage part of the contract holds: submitting
`sampleEvent` twice stores exactly one row, and the duplicate
submission is absorbed without error.  But the returned counts are
wrong: `load_events` tests its fetched `RETURNING` row with
`if row == 1`, which is never true in Python (the row object, or
`None`, never equals the integer `1`), so the very first submission of
a fresh event is reported as `inserted = 0, skipped = 1` where the
claim (and the function's own contract) requires
`inserted = 1, skipped = 0`. -/
theorem load_events_miscounts_inserted :
    (load_events [] [sampleEvent] 7).1.length = 1
    ∧ (load_events [] [sampleEvent] 7).2
        = { total := 1, inserted := 0, skipped := 1 }
    ∧ (load_events (load_events [] [sampleEvent] 7).1 [sampleEvent] 7).1.length = 1
    ∧ (load_events (load_events [] [sampleEvent] 7).1 [sampleEvent] 7).2
        = { total := 1, inserted := 0, skipped := 1 } := by
  decide

/-- C3 counterexample — `beta_binomial_smooth` does not clamp its return
value in the `trials > 0` branch: with `successes = 2, trials = 1,
prior_p = 0, prior_strength = 0` it returns `2`, outside `[0, 1]`,
refuting "the returned value is itself clamped to [0,1]" for all real
inputs. -/
theorem beta_binomial_smooth_result_not_clamped :
    beta_binomial_smooth 2 1 0 0 = 2 ∧ ¬ beta_binomial_smooth 2 1 0 0 ≤ 1 := by
  constructor
  · norm_num [beta_binomial_smooth, clamp01]
  · norm_num [beta_binomial_smooth, clamp01]

/-- C3 (status: corrected) — amended claim: for all rational inputs,
`beta_binomial_smooth` returns `prior_p` clamped to `[0,1]` whenever
`trials ≤ 0`; otherwise it returns the unclamped posterior mean
`(alpha + successes) / (alpha + beta + trials)` with
`alpha = prior_p * prior_strength`, `beta = (1 - prior_p) *
prior_strength`, `prior_p` first clamped to `[0,1]` and
`prior_strength` first clamped to `≥ 0` (the returned value itself is
not clamped); in particular with `prior_strength = 0` and `trials > 0`
it returns `successes / trials` exactly. -/
theorem beta_binomial_smooth_amended (s t pp ps : ℚ) :
    (t ≤ 0 → beta_binomial_smooth s t pp ps = clamp01 pp)
    ∧ (0 < t →
        beta_binomial_smooth s t pp ps =
          (clamp01 pp * max ps 0 + s) /
            (clamp01 pp * max ps 0 + (1 - clamp01 pp) * max ps 0 + t))
    ∧ (0 < t → beta_binomial_smooth s t pp 0 = s / t) := by
  refine ⟨fun h => ?_, fun h => ?_, fun h => ?_⟩
  · simp [beta_binomial_smooth, h]
  · rw [beta_binomial_smooth, if_neg (by linarith)]
  · rw [beta_binomial_smooth, if_neg (by linarith)]
    have hden : clamp01 pp * max (0 : ℚ) 0 + (1 - clamp01 pp) * max (0 : ℚ) 0 + t = t := by
      simp
    simp only [max_self]
    rw [show clamp01 pp * (0 : ℚ) = 0 by ring, show (1 - clamp01 pp) * (0 : ℚ) = 0 by ring]
    ring_nf

/-- C3 witness: the amended theorem applied at `successes = 3,
trials = 4, prior_p = 1/2, prior_strength = 0`. -/
theorem beta_binomial_smooth_amended_witness :
    beta_binomial_smooth 3 4 (1 / 2) 0 = 3 / 4 :=
  (beta_binomial_smooth_amended 3 4 (1 / 2) 0).2.2 (by norm_num)

/-- C5 (status: confirmed) — for every calendar date (ordinal `d`), the
day type the QueryService assigns (`day_type_for_date`, Python weekday
Monday–Friday = WEEKDAY, Saturday, Sunday) equals the day type the
day-type MetricsEngine variant derives via `dow_to_day_type` from the
date's Postgres day-of-week (0 = Sunday … 6 = Saturday): the two
components use the same day-type convention. -/
theorem day_type_conventions_agree (d : Nat) :
    day_type_for_date d = dow_to_day_type (pgDow d) := by
  have h : d % 7 = 0 ∨ d % 7 = 1 ∨ d % 7 = 2 ∨ d % 7 = 3 ∨ d % 7 = 4 ∨ d % 7 = 5
      ∨ d % 7 = 6 := by omega
  unfold day_type_for_date dow_to_day_type pyWeekday pgDow
  rcases h with h | h | h | h | h | h | h <;>
    · have h6 : (d + 6) % 7 = (d % 7 + 6) % 7 := by omega
      rw [h6, h]
      norm_num

/-- C7 (status: confirmed) — for every computed slot metric,
`reliability_score` is the integer `round(100 * (1 - disruption_prob))`
(Python's round) clamped to `[0, 100]`; `effective_sample_size` is the
group's recency-weighted `w_services` unchanged (no integer
truncation); and `confidence_band` is `"low"` exactly when the
effective sample size is `< 8`, `"medium"` exactly when it is in
`[8, 20)`, and `"high"` exactly when it is `≥ 20`. -/
theorem slot_metric_score_ess_bands (w : WeightedCounts) (opd opc ps : ℚ) :
    (compute_slot_metric w opd opc ps).reliability_score
      = max 0 (min 100 (pyRound (100 * (1 - (compute_slot_metric w opd opc ps).disruption_prob))))
    ∧ (compute_slot_metric w opd opc ps).effective_sample_size = w.w_services
    ∧ ∀ e : ℚ,
        (confidence_band e = "low" ↔ e < 8)
        ∧ (confidence_band e = "medium" ↔ 8 ≤ e ∧ e < 20)
        ∧ (confidence_band e = "high" ↔ 20 ≤ e) := by
  refine ⟨rfl, rfl, fun e => ?_⟩
  have hhl : ("high" : String) ≠ "low" := by decide
  have hhm : ("high" : String) ≠ "medium" := by decide
  have hml : ("medium" : String) ≠ "low" := by decide
  unfold confidence_band
  by_cases h20 : 20 ≤ e
  · rw [if_pos h20]
    refine ⟨⟨fun hc => absurd hc hhl, fun hc => absurd h20 (by linarith)⟩,
      ⟨fun hc => absurd hc hhm, fun hc => absurd h20 (by linarith [hc.2])⟩,
      ⟨fun _ => h20, fun _ => rfl⟩⟩
  · rw [if_neg h20]
    by_cases h8 : 8 ≤ e
    · rw [if_pos h8]
      refine ⟨⟨fun hc => absurd hc hml, fun hc => absurd h8 (by linarith)⟩,
        ⟨fun _ => ⟨h8, by linarith [not_le.mp h20]⟩, fun _ => rfl⟩,
        ⟨fun hc => absurd hc.symm hhm, fun hc => absurd hc h20⟩⟩
    · rw [if_neg h8]
      refine ⟨⟨fun _ => by linarith [not_le.mp h8], fun _ => rfl⟩,
        ⟨fun hc => absurd hc.symm hml, fun hc => absurd hc.1 h8⟩,
        ⟨fun hc => absurd hc.symm hhl, fun hc => absurd hc (by linarith [not_le.mp h8])⟩⟩

/-- C7 witness: the theorem applied at a concrete weighted-count value,
checking the scored output record. -/
theorem slot_metric_score_ess_bands_witness :
    (compute_slot_metric { w_services := 10, w_cancelled := 1, w_disrupted := 2 } 0 0 0).effective_sample_size
      = 10
    ∧ (confidence_band 10 = "medium" ↔ 8 ≤ (10 : ℚ) ∧ (10 : ℚ) < 20) := by
  refine ⟨?_, ?_⟩
  · exact (slot_metric_score_ess_bands
      { w_services := 10, w_cancelled := 1, w_disrupted := 2 } 0 0 0).2.1
  · exact ((slot_metric_score_ess_bands
      { w_services := 10, w_cancelled := 1, w_disrupted := 2 } 0 0 0).2.2 10).2.1

/-- A resolved non-blank HHMM timestamp lies on the given service day:
`service_date * 1440 ≤ t < service_date * 1440 + 1440`. -/
theorem hhmm_to_dt_ok_some_bounds {sd : Nat} {s : String} {t : Nat}
    (h : hhmm_to_dt sd s = .ok (some t)) :
    sd * 1440 ≤ t ∧ t < sd * 1440 + 1440 := by
  simp only [hhmm_to_dt] at h
  split at h
  · exact absurd h (by simp)
  · split at h
    · exact absurd h (by simp)
    · split at h
      · exact absurd h (by simp)
      · rename_i hrange
        simp only [Except.ok.injEq, Option.some.injEq] at h
        omega

/-- `roll_if_next_day` on two same-day timestamps yields a timestamp at
or after the departure. -/
theorem roll_if_next_day_ge {dep t u low : Nat}
    (hdep2 : dep < low + 1440) (ht : low ≤ t)
    (h : roll_if_next_day dep (some t) = some u) :
    dep ≤ u := by
  simp only [roll_if_next_day] at h
  split at h <;> (simp only [Option.some.injEq] at h; omega)

/-- C10 (status: confirmed) — for every `CanonicalServiceEvent` the
normaliser emits, the scheduled arrival timestamp (when present) and
the actual arrival timestamp (when present) are never strictly earlier
than the scheduled departure timestamp: `roll_if_next_day` maps any
same-day arrival that precedes the departure one calendar day later,
so the arrival delay is computed from an arrival at or after the
departure. -/
theorem normalizer_arrival_not_before_departure
    (rid from_loc to_loc : String) (data : ServiceAttributesDetails)
    (tmpl : String → String × String × String) (ev : CanonicalServiceEvent)
    (hok : details_to_event rid data from_loc to_loc tmpl = .ok (some ev)) :
    (∀ a, ev.scheduled_arrival_ts = some a → ev.scheduled_departure_ts ≤ a)
    ∧ (∀ a, ev.actual_arrival_ts = some a → ev.scheduled_departure_ts ≤ a) := by
  simp only [details_to_event] at hok
  split at hok
  · exact absurd hok (by simp)
  · split at hok
    · exact absurd hok (by simp)
    · rename_i service_date hiso
      split at hok
      · exact absurd hok (by simp)
      · exact absurd hok (by simp)
      · rename_i origin_row dest_row hfind1 hfind2
        split at hok
        · exact absurd hok (by simp)
        · exact absurd hok (by simp)
        · rename_i sched_dep hdep
          split at hok
          · exact absurd hok (by simp)
          · rename_i pta hpta
            split at hok
            · exact absurd hok (by simp)
            · rename_i ta hta
              simp only [Except.ok.injEq, Option.some.injEq] at hok
              obtain ⟨hlow, hhigh⟩ := hhmm_to_dt_ok_some_bounds hdep
              subst hok
              constructor
              · intro a ha
                show sched_dep ≤ a
                simp only at ha
                cases pta with
                | none => exact absurd ha (by simp [roll_if_next_day])
                | some tp =>
                  obtain ⟨hl, _⟩ := hhmm_to_dt_ok_some_bounds hpta
                  exact roll_if_next_day_ge hhigh hl ha
              · intro a ha
                show sched_dep ≤ a
                simp only at ha
                cases ta with
                | none => exact absurd ha (by simp [roll_if_next_day])
                | some tt =>
                  obtain ⟨hl, _⟩ := hhmm_to_dt_ok_some_bounds hta
                  exact roll_if_next_day_ge hhigh hl ha

/-- C10 witness: the theorem applied to the concrete midnight-rollover
record, whose rolled scheduled arrival (minute 2890) is at or after the
departure (minute 2870). -/
theorem normalizer_arrival_not_before_departure_witness :
    rolloverEvent.scheduled_departure_ts ≤ 2890 :=
  (normalizer_arrival_not_before_departure "rid1" "RDG" "PAD" rolloverRecord tmpl0
    rolloverEvent (by decide)).1 2890 (by decide)

/-- C4 counterexample — a record with an unresolvable (malformed,
non-blank) scheduled departure makes `details_to_event` raise
`ValueError` (via `hhmm_to_dt`) instead of returning the `None` skip
signal, refuting "returns an explicit skip signal (None) and never
raises an exception". -/
theorem details_to_event_raises_on_malformed_hhmm :
    details_to_event "rid9" badPtdRecord "RDG" "PAD" tmpl0
      = .error "ValueError: Bad HHMM value: 08X0" := by
  decide

/-- C4 (status: corrected) — amended claim: a record missing a service
date (blank), missing the origin- or destination-location row for the
requested corridor (given a parseable service date), or whose resolved
scheduled departure is blank, is skipped with an explicit `None` (not
an error) and processing can continue; however a non-blank malformed
service date or a non-blank malformed timestamp raises `ValueError`
rather than skipping. -/
theorem details_to_event_blank_skips
    (rid from_loc to_loc : String) (data : ServiceAttributesDetails)
    (tmpl : String → String × String × String) :
    (strEmpty (pyStrip data.date_of_service) = true →
      details_to_event rid data from_loc to_loc tmpl = .ok none)
    ∧ (∀ sd, fromisoformat (pyStrip data.date_of_service) = .ok sd →
        (data.locations.find? (fun x => x.location = from_loc) = none
          ∨ data.locations.find? (fun x => x.location = to_loc) = none) →
        details_to_event rid data from_loc to_loc tmpl = .ok none)
    ∧ (∀ sd origin_row dest_row,
        fromisoformat (pyStrip data.date_of_service) = .ok sd →
        data.locations.find? (fun x => x.location = from_loc) = some origin_row →
        data.locations.find? (fun x => x.location = to_loc) = some dest_row →
        hhmm_to_dt sd (orElseStr (pyStrip origin_row.gbtt_ptd) (tmpl rid).1) = .ok none →
        details_to_event rid data from_loc to_loc tmpl = .ok none) := by
  have hblank : strEmpty (pyStrip data.date_of_service) = true →
      details_to_event rid data from_loc to_loc tmpl = .ok none := by
    intro h
    simp only [details_to_event]
    rw [if_pos h]
  have hnonblank : ∀ sd, fromisoformat (pyStrip data.date_of_service) = .ok sd →
      strEmpty (pyStrip data.date_of_service) = false := by
    intro sd h
    cases hie : strEmpty (pyStrip data.date_of_service)
    · rfl
    · exfalso
      have hdata : (pyStrip data.date_of_service).data = [] := by
        simpa [strEmpty, List.isEmpty_iff] using hie
      have hps : pyStrip data.date_of_service = "" := by
        apply String.ext
        rw [hdata]
      have hq : fromisoformat "" = Except.error ("ValueError: Invalid isoformat string: " ++ "") := by
        decide
      rw [hps, hq] at h
      exact Except.noConfusion h
  refine ⟨hblank, fun sd hiso hmiss => ?_, fun sd origin_row dest_row hiso hf1 hf2 hdep => ?_⟩
  · simp only [details_to_event]
    rw [if_neg (by simp [hnonblank sd hiso]), hiso]
    rcases hmiss with hm | hm
    · rw [hm]
    · rw [hm]
      cases data.locations.find? (fun x => x.location = from_loc) <;> rfl
  · simp [details_to_event, hnonblank sd hiso, hiso, hf1, hf2, hdep]

/-- Where the batched write loop stands when an uncaught error hits the
`k`-th group: the first `k - 1` groups were written, the last complete
500-row batches are committed, the remainder is still pending, and the
ledger still holds the committed `running` record. -/
theorem daytypeWriteLoop_fail {α : Type} (groups : List α) (k : Nat) :
    ∀ (gs : List α) (w : Nat) (db : MetricsDb α),
      gs = groups.drop w → w < k → k ≤ groups.length →
      db.committed = groups.take (500 * (w / 500)) →
      db.pending = (groups.take w).drop (500 * (w / 500)) →
      db.ledger = some JobStatus.running → db.ledgerPending = none →
      daytypeWriteLoop true (some k) gs w db =
        ({ committed := groups.take (500 * ((k - 1) / 500))
           pending := (groups.take (k - 1)).drop (500 * ((k - 1) / 500))
           ledger := some JobStatus.running
           ledgerPending := none }, k - 1, true) := by
  intro gs
  induction gs with
  | nil =>
    intro w db hgs hwk hkl _ _ _ _
    exfalso
    have hlen : (groups.drop w).length = 0 := by rw [← hgs]; rfl
    rw [List.length_drop] at hlen
    omega
  | cons g gs ih =>
    intro w db hgs hwk hkl hcom hpen hled hlp
    have hlen : w < groups.length := by omega
    rw [daytypeWriteLoop]
    by_cases hke : k = w + 1
    · rw [if_pos (by rw [hke])]
      obtain ⟨c, p, l, lp⟩ := db
      simp only at hcom hpen hled hlp
      subst hcom hpen hled hlp hke
      simp only [Nat.add_sub_cancel]
    · rw [if_neg (fun hcon => hke (Option.some.inj hcon))]
      have hget : groups[w]? = some g := by
        rw [← List.head?_drop, ← hgs, List.head?_cons]
      have htake1 : groups.take (w + 1) = groups.take w ++ [g] := by
        rw [List.take_succ, hget, Option.toList_some]
      have hdrop1 : gs = groups.drop (w + 1) := by
        rw [← List.tail_drop, ← hgs, List.tail_cons]
      have hBle : 500 * (w / 500) ≤ w := by omega
      have hlentw : (groups.take w).length = w := by
        rw [List.length_take]; omega
      simp only [dbExecuteUpsert]
      by_cases hmod : (w + 1) % 500 = 0
      · rw [if_pos ⟨trivial, hmod⟩]
        have h501 : 500 * ((w + 1) / 500) = w + 1 := by omega
        apply ih (w + 1) _ hdrop1 (by omega) hkl
        · show db.committed ++ (db.pending ++ [g]) = groups.take (500 * ((w + 1) / 500))
          rw [hcom, hpen, h501, htake1, ← List.append_assoc]
          have hTT : (groups.take w).take (500 * (w / 500))
              = groups.take (500 * (w / 500)) := by
            rw [List.take_take]
            congr 1
            omega
          rw [← hTT, List.take_append_drop]
        · show ([] : List α) = (groups.take (w + 1)).drop (500 * ((w + 1) / 500))
          symm
          rw [List.drop_eq_nil_iff, List.length_take]
          omega
        · show (match db.ledgerPending with
              | some s => some s
              | none => db.ledger) = some JobStatus.running
          rw [hlp, hled]
        · rfl
      · rw [if_neg (fun hcon => hmod hcon.2)]
        have hdiv : (w + 1) / 500 = w / 500 := by omega
        apply ih (w + 1) _ hdrop1 (by omega) hkl
        · show db.committed = groups.take (500 * ((w + 1) / 500))
          rw [hcom, hdiv]
        · show db.pending ++ [g] = (groups.take (w + 1)).drop (500 * ((w + 1) / 500))
          rw [hpen, hdiv, htake1,
            List.drop_append_of_le_length (by rw [hlentw]; exact hBle)]
        · exact hled
        · exact hlp

/-- C2 (status: corrected) — amended claim: if a day-type metrics
compute run raises any uncaught error, every *uncommitted* metric-row
write of the run is rolled back before the failure (with its error
description) is recorded in the Job Ledger and the error is re-raised
to the caller; rows already made durable by the run's intermediate
500-row batch commits remain committed — in particular, a run failing
before its first 500 written rows leaves no `slot_metrics_daytype`
rows behind. -/
theorem compute_daytype_failure_rolls_back_uncommitted {α : Type} (groups : List α)
    (k : Nat) (hk1 : 1 ≤ k) (hk2 : k ≤ groups.length) :
    (compute_slot_metrics_daytype true groups (some k)).result = .error "exception"
    ∧ (compute_slot_metrics_daytype true groups (some k)).db.pending = []
    ∧ (compute_slot_metrics_daytype true groups (some k)).db.ledger = some JobStatus.fail
    ∧ (compute_slot_metrics_daytype true groups (some k)).db.ledgerPending = none
    ∧ (compute_slot_metrics_daytype true groups (some k)).db.committed
        = groups.take (500 * ((k - 1) / 500)) := by
  have hloop := daytypeWriteLoop_fail groups k groups 0
    (startJob { committed := [], pending := [], ledger := none, ledgerPending := none })
    rfl (by omega) hk2 rfl rfl rfl rfl
  simp only [compute_slot_metrics_daytype, hloop]
  refine ⟨rfl, rfl, ?_, rfl, ?_⟩
  · rfl
  · show groups.take (500 * ((k - 1) / 500)) ++ [] = groups.take (500 * ((k - 1) / 500))
    exact List.append_nil _

/-- C2 witness: the amended theorem applied to a one-group run failing
at its first write — no metric rows remain committed, the rollback left
nothing pending, and the ledger records the failure. -/
theorem compute_daytype_failure_rolls_back_uncommitted_witness :
    (compute_slot_metrics_daytype true [(0 : Nat)] (some 1)).db.committed = []
    ∧ (compute_slot_metrics_daytype true [(0 : Nat)] (some 1)).db.ledger
        = some JobStatus.fail := by
  have h := compute_daytype_failure_rolls_back_uncommitted [(0 : Nat)] 1
    (le_refl 1) (by decide)
  exact ⟨h.2.2.2.2.trans (by decide), h.2.2.1⟩

set_option maxRecDepth 100000 in
/-- C2 counterexample — a run that batch-commits 500 rows and then
fails at its 501st write leaves those 500 rows durably committed: the
claim's "no partial `slot_metrics_daytype` rows from the failed run
remain committed, regardless of how many rows the run had written" is
false; only uncommitted writes are rolled back. -/
theorem compute_daytype_failure_leaves_committed_batches :
    (compute_slot_metrics_daytype true (List.range 501) (some 501)).result
      = .error "exception"
    ∧ (compute_slot_metrics_daytype true (List.range 501) (some 501)).db.committed
        ≠ [] := by
  constructor
  · rfl
  · decide

/-- Coverage of the window loop: starting from `cur` (with fuel at
least `toM - cur`), every minute `t` with `cur ≤ t < toM` lies in
exactly one produced half-open window `[w.1, w.2)`, and minutes outside
lie in none. -/
theorem timeWindowsGo_countP (toM step : Nat) (hstep : 0 < step) (t : Nat) :
    ∀ fuel cur, toM - cur ≤ fuel →
      (timeWindowsGo toM step fuel cur).countP (fun w => decide (w.1 ≤ t ∧ t < w.2))
        = if cur ≤ t ∧ t < toM then 1 else 0 := by
  intro fuel
  induction fuel with
  | zero =>
    intro cur h
    simp only [timeWindowsGo, List.countP_nil]
    rw [if_neg (by omega)]
  | succ fuel ih =>
    intro cur h
    simp only [timeWindowsGo]
    by_cases hc : cur < toM
    · rw [if_pos ⟨hc, hstep⟩]
      have hnxt1 : cur < min (cur + step) toM := by omega
      have hnxt2 : min (cur + step) toM ≤ toM := by omega
      rw [List.countP_cons, ih (min (cur + step) toM) (by omega)]
      simp only [decide_eq_true_eq]
      split_ifs <;> omega
    · rw [if_neg (fun hcon => hc hcon.1), List.countP_nil, if_neg (by omega)]

/-- Every window the loop produces starts at or after `cur`, is
nonempty, ends by `toM`, and is at most `step` minutes long. -/
theorem timeWindowsGo_bounds (toM step : Nat) :
    ∀ fuel cur w, w ∈ timeWindowsGo toM step fuel cur →
      cur ≤ w.1 ∧ w.1 < w.2 ∧ w.2 ≤ toM ∧ w.2 - w.1 ≤ step := by
  intro fuel
  induction fuel with
  | zero =>
    intro cur w hw
    simp [timeWindowsGo] at hw
  | succ fuel ih =>
    intro cur w hw
    simp only [timeWindowsGo] at hw
    by_cases hc : cur < toM ∧ 0 < step
    · rw [if_pos hc] at hw
      rcases List.mem_cons.mp hw with hw | hw
      · subst hw
        refine ⟨le_refl _, ?_, ?_, ?_⟩ <;> simp only <;> omega
      · have hr := ih (min (cur + step) toM) w hw
        have : cur < min (cur + step) toM := by omega
        exact ⟨by omega, hr.2.1, hr.2.2.1, hr.2.2.2⟩
    · rw [if_neg hc] at hw
      exact absurd hw (List.not_mem_nil w)

/-- The produced windows are ordered and non-overlapping: each ends at
or before the next begins. -/
theorem timeWindowsGo_pairwise (toM step : Nat) :
    ∀ fuel cur, (timeWindowsGo toM step fuel cur).Pairwise (fun a b => a.2 ≤ b.1) := by
  intro fuel
  induction fuel with
  | zero =>
    intro cur
    simp [timeWindowsGo]
  | succ fuel ih =>
    intro cur
    simp only [timeWindowsGo]
    by_cases hc : cur < toM ∧ 0 < step
    · rw [if_pos hc]
      refine List.Pairwise.cons ?_ (ih (min (cur + step) toM))
      intro b hb
      exact (timeWindowsGo_bounds toM step fuel (min (cur + step) toM) b hb).1
    · rw [if_neg hc]
      exact List.Pairwise.nil

/-- C9 (status: confirmed) — for every time-of-day range and positive
step size the window planner produces an ordered sequence of windows
that covers the requested (half-open) range exactly once with
non-overlapping windows, each window at most step-size minutes long;
and when the target day-type is `"WEEKDAY"` and weekday filtering is
enabled, every chunk request the planner emits falls on a Monday–Friday
date (Saturday and Sunday dates are omitted before chunking). -/
theorem window_planner_covers_once_and_skips_weekends
    (fromM toM step : Nat) (hstep : 0 < step) :
    (∀ t, (time_windows fromM toM step).countP
        (fun w => decide (w.1 ≤ t ∧ t < w.2))
        = if fromM ≤ t ∧ t < toM then 1 else 0)
    ∧ (∀ w ∈ time_windows fromM toM step, w.1 < w.2 ∧ w.2 - w.1 ≤ step)
    ∧ (time_windows fromM toM step).Pairwise (fun a b => a.2 ≤ b.1)
    ∧ (∀ (cfg : HspConfig) (d0 d1 : Nat) (days : String),
        cfg.metrics_filter_weekdays = true → upperStr days = "WEEKDAY" →
        ∀ c ∈ fetch_service_metrics_chunked_plan cfg d0 d1 fromM toM days,
          pyWeekday c.1 < 5) := by
  refine ⟨fun t => ?_, fun w hw => ?_, ?_, fun cfg d0 d1 days hflt hup c hc => ?_⟩
  · exact timeWindowsGo_countP toM step hstep t (toM - fromM) fromM (le_refl _)
  · have hb := timeWindowsGo_bounds toM step (toM - fromM) fromM w hw
    exact ⟨hb.2.1, hb.2.2.2⟩
  · exact timeWindowsGo_pairwise toM step (toM - fromM) fromM
  · simp only [fetch_service_metrics_chunked_plan, hflt, hup, and_self, if_pos] at hc
    rcases List.mem_flatMap.mp hc with ⟨d, hd, hcw⟩
    rcases List.mem_map.mp hcw with ⟨w, _, hw⟩
    have hd5 : pyWeekday d < 5 := by
      have := List.mem_filter.mp hd
      simpa [weekday_only] using (List.mem_filter.mp hd).2
    subst hw
    exact hd5

/-- C9 witness: the theorem applied at range 0–100 with step 60 —
minute 50 is covered exactly once, and a Friday chunk from a
weekday-filtered plan over a Friday-to-Monday range is on a weekday. -/
theorem window_planner_witness :
    (time_windows 0 100 60).countP (fun w => decide (w.1 ≤ 50 ∧ 50 < w.2)) = 1
    ∧ pyWeekday 5 < 5 := by
  constructor
  · have h := (window_planner_covers_once_and_skips_weekends 0 100 60 (by norm_num)).1 50
    simpa using h
  · exact (window_planner_covers_once_and_skips_weekends 0 100 60 (by norm_num)).2.2.2
      { metrics_window_minutes := 60, metrics_filter_weekdays := true,
        retries := 0, backoff_base := 0 }
      5 8 "weekday" rfl (by decide) (5, 0, 60) (by decide)

theorem lastErrAfter_succ (outcomes : Nat → AttemptOutcome) (attempt j : Nat)
    (lastErr : Option ReqError) :
    lastErrAfter outcomes (attempt + 1) j (some (attemptErr (outcomes attempt)))
      = lastErrAfter outcomes attempt (j + 1) lastErr := by
  unfold lastErrAfter
  by_cases hj : j = 0
  · subst hj
    simp
  · rw [if_neg hj, if_neg (by omega)]
    have hidx : attempt + 1 + j - 1 = attempt + (j + 1) - 1 := by omega
    rw [hidx]

/-- One absorbed (retryable) attempt: sleep the backoff duration, store
the attempt's error as `last_err`, move to the next attempt. -/
theorem postAttempts_step_retryable (cfg : HspConfig) (outcomes : Nat → AttemptOutcome)
    (jitter : Nat → ℚ) (r attempt : Nat) (lastErr : Option ReqError)
    (h : retriesOn (outcomes attempt) = true) :
    postAttempts cfg outcomes jitter (r + 1) attempt lastErr =
      { sleeps := sleep_backoff_duration cfg attempt (jitter attempt)
          :: (postAttempts cfg outcomes jitter r (attempt + 1)
              (some (attemptErr (outcomes attempt)))).sleeps
        result := (postAttempts cfg outcomes jitter r (attempt + 1)
              (some (attemptErr (outcomes attempt)))).result } := by
  cases ho : outcomes attempt with
  | resp s body =>
    rw [ho] at h
    simp only [retriesOn, decide_eq_true_eq] at h
    simp only [postAttempts, ho, attemptErr]
    rw [if_pos h]
  | connectTimeout => simp only [postAttempts, ho, attemptErr]
  | readTimeout => simp only [postAttempts, ho, attemptErr]
  | otherFailure => simp only [postAttempts, ho, attemptErr]

/-- A 2xx response returns the parsed body at once. -/
theorem postAttempts_step_success (cfg : HspConfig) (outcomes : Nat → AttemptOutcome)
    (jitter : Nat → ℚ) (r attempt : Nat) (lastErr : Option ReqError) (s : Nat) (body : String)
    (ho : outcomes attempt = .resp s body) (h2 : is2xx s = true) :
    postAttempts cfg outcomes jitter (r + 1) attempt lastErr =
      { sleeps := [], result := .ok body } := by
  have hnr : ¬ s ∈ RETRY_STATUSES := by
    simp only [is2xx, decide_eq_true_eq] at h2
    simp only [RETRY_STATUSES, List.mem_cons, List.not_mem_nil, or_false]
    omega
  simp only [postAttempts, ho]
  rw [if_neg hnr, if_pos h2]

/-- Any other non-2xx status aborts immediately: no sleep, no retry,
the raised error carrying the truncated body snippet. -/
theorem postAttempts_step_abort (cfg : HspConfig) (outcomes : Nat → AttemptOutcome)
    (jitter : Nat → ℚ) (r attempt : Nat) (lastErr : Option ReqError) (s : Nat) (body : String)
    (ho : outcomes attempt = .resp s body) (hnr : ¬ s ∈ RETRY_STATUSES)
    (h2 : is2xx s = false) :
    postAttempts cfg outcomes jitter (r + 1) attempt lastErr =
      { sleeps := [], result := .error (some (.httpStatus s (strTake body 300))) } := by
  simp only [postAttempts, ho]
  rw [if_neg hnr, if_neg (by rw [h2]; exact Bool.false_ne_true)]

/-- Absorbing `j` consecutive retryable attempts prepends their backoff
sleeps to the trace and advances the loop `j` attempts with the
last of their errors stored. -/
theorem postAttempts_skip_retryable (cfg : HspConfig) (outcomes : Nat → AttemptOutcome)
    (jitter : Nat → ℚ) :
    ∀ (j r attempt : Nat) (lastErr : Option ReqError), j ≤ r →
      (∀ i, attempt ≤ i → i < attempt + j → retriesOn (outcomes i) = true) →
      postAttempts cfg outcomes jitter r attempt lastErr =
        { sleeps := ((List.range j).map
            (fun i => sleep_backoff_duration cfg (attempt + i) (jitter (attempt + i))))
            ++ (postAttempts cfg outcomes jitter (r - j) (attempt + j)
                (lastErrAfter outcomes attempt j lastErr)).sleeps
          result := (postAttempts cfg outcomes jitter (r - j) (attempt + j)
                (lastErrAfter outcomes attempt j lastErr)).result } := by
  intro j
  induction j with
  | zero =>
    intro r attempt lastErr hjr hall
    simp [lastErrAfter]
  | succ j ih =>
    intro r attempt lastErr hjr hall
    obtain ⟨r', rfl⟩ : ∃ r', r = r' + 1 := ⟨r - 1, by omega⟩
    have hfirst : retriesOn (outcomes attempt) = true :=
      hall attempt (le_refl _) (by omega)
    rw [postAttempts_step_retryable cfg outcomes jitter r' attempt lastErr hfirst]
    rw [ih r' (attempt + 1) (some (attemptErr (outcomes attempt))) (by omega)
      (fun i h1 h2 => hall i (by omega) (by omega))]
    rw [lastErrAfter_succ outcomes attempt j lastErr]
    have hr : r' - j = r' + 1 - (j + 1) := by omega
    have ha : attempt + 1 + j = attempt + (j + 1) := by omega
    rw [hr, ha]
    have hrange : (List.range (j + 1)).map
        (fun i => sleep_backoff_duration cfg (attempt + i) (jitter (attempt + i)))
        = sleep_backoff_duration cfg attempt (jitter attempt)
          :: (List.range j).map
            (fun i => sleep_backoff_duration cfg (attempt + 1 + i) (jitter (attempt + 1 + i))) := by
      rw [List.range_succ_eq_map, List.map_cons, List.map_map]
      refine congrArg₂ _ (by rw [Nat.add_zero]) ?_
      refine List.map_congr_left (fun i _ => ?_)
      simp only [Function.comp_apply]
      have : attempt + (i + 1) = attempt + 1 + i := by omega
      rw [this]
    rw [hrange]
    rfl

/-- C8 (status: confirmed) — for every request execution: a response
whose status is in {429, 502, 503, 504, 520, 522, 524} or a
connect/read timeout is retried up to the configured maximum attempt
count; the sleep before each retry is `backoff_base * 2^(attempt-1)`
seconds plus the drawn additive jitter (uniform in [0, 0.5] in the
code, so each sleep is bounded by the backoff term plus 0.5); any
other non-2xx status aborts the request immediately with no further
sleep or retry, surfacing the error with the response body truncated
to 300 characters; and exhausting all attempts raises the last
encountered error. -/
theorem post_with_retry_policy (cfg : HspConfig) (outcomes : Nat → AttemptOutcome)
    (jitter : Nat → ℚ) :
    (∀ a s body, 1 ≤ a → a ≤ cfg.retries →
      (∀ i, 1 ≤ i → i < a → retriesOn (outcomes i) = true) →
      outcomes a = .resp s body → ¬ s ∈ RETRY_STATUSES → is2xx s = false →
      post_with_retry cfg outcomes jitter =
        { sleeps := (List.range (a - 1)).map
            (fun i => sleep_backoff_duration cfg (1 + i) (jitter (1 + i)))
          result := .error (some (.httpStatus s (strTake body 300))) })
    ∧ (∀ a s body, 1 ≤ a → a ≤ cfg.retries →
      (∀ i, 1 ≤ i → i < a → retriesOn (outcomes i) = true) →
      outcomes a = .resp s body → is2xx s = true →
      post_with_retry cfg outcomes jitter =
        { sleeps := (List.range (a - 1)).map
            (fun i => sleep_backoff_duration cfg (1 + i) (jitter (1 + i)))
          result := .ok body })
    ∧ (1 ≤ cfg.retries →
      (∀ i, 1 ≤ i → i ≤ cfg.retries → retriesOn (outcomes i) = true) →
      post_with_retry cfg outcomes jitter =
        { sleeps := (List.range cfg.retries).map
            (fun i => sleep_backoff_duration cfg (1 + i) (jitter (1 + i)))
          result := .error (some (attemptErr (outcomes cfg.retries))) })
    ∧ (∀ attempt, sleep_backoff_duration cfg attempt (jitter attempt)
        = cfg.backoff_base * 2 ^ (attempt - 1) + jitter attempt)
    ∧ (∀ attempt, 0 ≤ jitter attempt → jitter attempt ≤ 1 / 2 →
        cfg.backoff_base * 2 ^ (attempt - 1)
            ≤ sleep_backoff_duration cfg attempt (jitter attempt)
        ∧ sleep_backoff_duration cfg attempt (jitter attempt)
            ≤ cfg.backoff_base * 2 ^ (attempt - 1) + 1 / 2) := by
  have hskip := postAttempts_skip_retryable cfg outcomes jitter
  refine ⟨fun a s body ha1 ha2 hpre ho hnr h2 => ?_,
    fun a s body ha1 ha2 hpre ho h2 => ?_, fun hr1 hall => ?_, fun attempt => rfl,
    fun attempt hj0 hj1 => ⟨by simp [sleep_backoff_duration, hj0],
      by simp only [sleep_backoff_duration]; linarith⟩⟩
  · unfold post_with_retry
    rw [hskip (a - 1) cfg.retries 1 none (by omega)
      (fun i h1 h2 => hpre i h1 (by omega))]
    obtain ⟨r', hr'⟩ : ∃ r', cfg.retries - (a - 1) = r' + 1 := ⟨cfg.retries - a, by omega⟩
    have h1a : 1 + (a - 1) = a := by omega
    rw [hr', h1a, postAttempts_step_abort cfg outcomes jitter r' a _ s body ho hnr h2,
      List.append_nil]
  · unfold post_with_retry
    rw [hskip (a - 1) cfg.retries 1 none (by omega)
      (fun i h1 h2 => hpre i h1 (by omega))]
    obtain ⟨r', hr'⟩ : ∃ r', cfg.retries - (a - 1) = r' + 1 := ⟨cfg.retries - a, by omega⟩
    have h1a : 1 + (a - 1) = a := by omega
    rw [hr', h1a, postAttempts_step_success cfg outcomes jitter r' a _ s body ho h2,
      List.append_nil]
  · unfold post_with_retry
    rw [hskip cfg.retries cfg.retries 1 none (le_refl _)
      (fun i h1 h2 => hall i h1 (by omega))]
    rw [Nat.sub_self]
    simp only [postAttempts, List.append_nil]
    unfold lastErrAfter
    rw [if_neg (by omega)]
    have : 1 + cfg.retries - 1 = cfg.retries := by omega
    rw [this]

/-- C8 witness: with 3 configured attempts, a 503 then a 404 — the 503
is absorbed with one backoff sleep and the 404 aborts at attempt 2 with
its truncated body, refuting neither retry cap nor abort rule. -/
theorem post_with_retry_policy_witness :
    post_with_retry
      { metrics_window_minutes := 60, metrics_filter_weekdays := true,
        retries := 3, backoff_base := 3 / 2 }
      (fun a => if a = 1 then .resp 503 "busy" else .resp 404 "missing")
      (fun _ => 1 / 4) =
      { sleeps := [3 / 2 * 2 ^ (1 - 1) + 1 / 4]
        result := .error (some (.httpStatus 404 (strTake "missing" 300))) } := by
  have h := (post_with_retry_policy
    { metrics_window_minutes := 60, metrics_filter_weekdays := true,
      retries := 3, backoff_base := 3 / 2 }
    (fun a => if a = 1 then .resp 503 "busy" else .resp 404 "missing")
    (fun _ => 1 / 4)).1 2 404 "missing" (by norm_num) (by norm_num)
    (fun i h1 h2 => by
      have : i = 1 := by omega
      subst this
      decide)
    (by decide) (by decide) (by decide)
  rw [h]
  rfl

/-- C4 witness: the amended theorem applied to three concrete records —
blank date, unmatched corridor, blank scheduled departure — each
skipped with `None`. -/
theorem details_to_event_blank_skips_witness :
    details_to_event "r" recBlankDate "RDG" "PAD" tmpl0 = .ok none
    ∧ details_to_event "r" recNoCorridor "RDG" "PAD" tmpl0 = .ok none
    ∧ details_to_event "r" recBlankDep "RDG" "PAD" tmpl0 = .ok none :=
  ⟨(details_to_event_blank_skips "r" "RDG" "PAD" recBlankDate tmpl0).1 (by decide),
   (details_to_event_blank_skips "r" "RDG" "PAD" recNoCorridor tmpl0).2.1 1 (by decide)
     (Or.inl (by decide)),
   (details_to_event_blank_skips "r" "RDG" "PAD" recBlankDep tmpl0).2.2 1
     { location := "RDG", gbtt_ptd := "", gbtt_pta := "", actual_ta := "" }
     { location := "PAD", gbtt_ptd := "", gbtt_pta := "0900", actual_ta := "0905" }
     (by decide) (by decide) (by decide) (by decide)⟩

theorem getLast?_some_mem {α : Type} {l : List α} {a : α}
    (h : l.getLast? = some a) : a ∈ l := by
  obtain ⟨hne, rfl⟩ := List.mem_getLast?_eq_getLast (show a ∈ l.getLast? by rw [h]; rfl)
  exact List.getLast_mem hne

/-- Candidate departure HHMMs all come from `daily_slot_agg` rows, so a
table of well-formed HHMM values yields well-formed candidates. -/
theorem filtered_hhmms_mem_valid (db_agg : List AggRow) (current_date : Nat)
    (from_loc to_loc : String) (operator : Option String) (day_type : String)
    (min_services d arrive_minutes window_minutes : Nat)
    (hvalid : ∀ r ∈ db_agg, r.dep_hhmm % 100 < 60) :
    ∀ k ∈ filtered_hhmms db_agg current_date from_loc to_loc operator day_type
        min_services d arrive_minutes window_minutes, k % 100 < 60 := by
  intro k hk
  have h1 : k ∈ dep_hhmms db_agg current_date from_loc to_loc operator day_type
      min_services := (List.mem_filter.mp hk).1
  have h2 := (List.mem_filter.mp h1).1
  rw [(List.perm_insertionSort _ _).mem_iff, List.mem_dedup] at h2
  rcases List.mem_map.mp h2 with ⟨r, hr, hrk⟩
  have hrdb : r ∈ db_agg := (List.mem_filter.mp hr).1
  rw [← hrk]
  exact hvalid r hrdb

/-- The candidate list is sorted ascending (the `ORDER BY dep_hhmm`). -/
theorem filtered_hhmms_pairwise_le (db_agg : List AggRow) (current_date : Nat)
    (from_loc to_loc : String) (operator : Option String) (day_type : String)
    (min_services d arrive_minutes window_minutes : Nat) :
    (filtered_hhmms db_agg current_date from_loc to_loc operator day_type
        min_services d arrive_minutes window_minutes).Pairwise (fun a b => a ≤ b) := by
  unfold filtered_hhmms dep_hhmms
  apply List.Pairwise.filter
  apply List.Pairwise.filter
  exact List.sorted_insertionSort (fun a b => a ≤ b)
    (((candidateAggRows db_agg current_date from_loc to_loc operator day_type).map
      (fun r => r.dep_hhmm)).dedup)

/-- For a candidate `k` of the filtered list, restricting the fetched
slot-metric rows to `dep_hhmm = k` is the same as filtering the whole
metric table with the claim's per-candidate predicate. -/
theorem slotMetricRows_filter_eq (db_metrics : List MetricRow) (md : Nat)
    (from_loc to_loc day_type : String) (operator : Option String)
    (hhmms : List Nat) (k : Nat) (hk : k ∈ hhmms) :
    (slotMetricRows db_metrics md from_loc to_loc day_type operator hhmms).filter
        (fun r => r.dep_hhmm = k)
      = db_metrics.filter (metricMatches md from_loc to_loc day_type operator k) := by
  unfold slotMetricRows
  rw [List.filter_filter]
  apply List.filter_congr
  intro r _
  rw [Bool.eq_iff_iff]
  simp only [Bool.and_eq_true, decide_eq_true_eq, metricMatches]
  constructor
  · rintro ⟨hdep, h1, h2, h3, h4, h5, h6, _⟩
    exact ⟨h1, h2, h3, h4, h5, h6, hdep⟩
  · rintro ⟨h1, h2, h3, h4, h5, h6, hdep⟩
    exact ⟨hdep, h1, h2, h3, h4, h5, h6, by rw [hdep]; exact hk⟩

/-- C6 (status: confirmed) — for every query (with well-formed HHMM
values in the rollup table): the response has exactly one entry per
filtered candidate departure, in order; entries are ordered by
departure time; an entry has coverage `"slot"` precisely when a metric
row for its departure exists at the selected metric date, and when that
row is unique the entry carries that row's values; an entry without a
direct slot-level row carries the unweighted averages of
`disruption_prob`/`cancellation_prob` over all metric rows of the
(origin, destination, day_type[, operator]) combination at that metric
date, a reliability score of `round(100 * (1 - averaged disruption))`,
`effective_sample_size = 0` and coverage `"baseline_fallback"`. -/
theorem get_reliability_slot_and_baseline
    (db_agg : List AggRow) (db_metrics : List MetricRow) (current_date : Nat)
    (from_loc to_loc : String) (d arrive_minutes : Nat)
    (operator : Option String) (window_minutes min_services : Nat)
    (out : List DepartureReliability) (md : Nat)
    (hvalid : ∀ r ∈ db_agg, r.dep_hhmm % 100 < 60)
    (hmd : (db_metrics.map (fun r => r.metric_date)).max? = some md)
    (hok : get_reliability db_agg db_metrics current_date from_loc to_loc d
        arrive_minutes operator window_minutes min_services = .ok out) :
    out.map (fun e => e.dep_hhmm)
      = filtered_hhmms db_agg current_date from_loc to_loc operator
          (day_type_for_date d) min_services d arrive_minutes window_minutes
    ∧ List.Pairwise (fun a b => a.departure_time ≤ b.departure_time) out
    ∧ (∀ e ∈ out,
        (e.coverage = "slot" ↔
          ∃ m ∈ db_metrics,
            metricMatches md from_loc to_loc (day_type_for_date d) operator
              e.dep_hhmm m = true))
    ∧ (∀ e ∈ out, ∀ m : MetricRow,
        db_metrics.filter
            (metricMatches md from_loc to_loc (day_type_for_date d) operator
              e.dep_hhmm) = [m] →
        e.operator = some m.operator ∧ e.disruption_prob = m.disruption_prob
          ∧ e.cancellation_prob = m.cancellation_prob
          ∧ e.reliability_score = m.reliability_score
          ∧ e.effective_sample_size = m.effective_sample_size
          ∧ e.confidence_band = m.confidence_band ∧ e.coverage = "slot")
    ∧ (∀ e ∈ out,
        db_metrics.filter
            (metricMatches md from_loc to_loc (day_type_for_date d) operator
              e.dep_hhmm) = [] →
        e.disruption_prob = sqlAvgOrZero ((baselineRows db_metrics md from_loc to_loc
              (day_type_for_date d) operator).map (fun r => r.disruption_prob))
          ∧ e.cancellation_prob = sqlAvgOrZero ((baselineRows db_metrics md from_loc to_loc
              (day_type_for_date d) operator).map (fun r => r.cancellation_prob))
          ∧ e.reliability_score = pyRound (100 * (1 - sqlAvgOrZero ((baselineRows db_metrics
              md from_loc to_loc (day_type_for_date d) operator).map
                (fun r => r.disruption_prob))))
          ∧ e.effective_sample_size = 0 ∧ e.coverage = "baseline_fallback") := by
  simp only [get_reliability, hmd] at hok
  rw [Except.ok.injEq] at hok
  subst hok
  refine ⟨?_, ?_, ?_, ?_, ?_⟩
  · rw [List.map_map]
    rw [List.map_congr_left (g := id) (fun k _ => ?_), List.map_id]
    simp only [Function.comp_apply, id]
    cases hbk : by_hhmm_get (slotMetricRows db_metrics md from_loc to_loc
        (day_type_for_date d) operator
        (filtered_hhmms db_agg current_date from_loc to_loc operator
          (day_type_for_date d) min_services d arrive_minutes window_minutes)) k <;>
      simp [hbk]
  · rw [List.pairwise_map]
    apply List.Pairwise.imp_of_mem ?_
      (filtered_hhmms_pairwise_le db_agg current_date from_loc to_loc operator
        (day_type_for_date d) min_services d arrive_minutes window_minutes)
    intro a b ha hb hab
    have hva := filtered_hhmms_mem_valid db_agg current_date from_loc to_loc operator
      (day_type_for_date d) min_services d arrive_minutes window_minutes hvalid a ha
    have hvb := filtered_hhmms_mem_valid db_agg current_date from_loc to_loc operator
      (day_type_for_date d) min_services d arrive_minutes window_minutes hvalid b hb
    cases hbka : by_hhmm_get (slotMetricRows db_metrics md from_loc to_loc
        (day_type_for_date d) operator
        (filtered_hhmms db_agg current_date from_loc to_loc operator
          (day_type_for_date d) min_services d arrive_minutes window_minutes)) a <;>
      cases hbkb : by_hhmm_get (slotMetricRows db_metrics md from_loc to_loc
          (day_type_for_date d) operator
          (filtered_hhmms db_agg current_date from_loc to_loc operator
            (day_type_for_date d) min_services d arrive_minutes window_minutes)) b <;>
        (simp only [depDt, hhmmToMinutes]; omega)
  · intro e he
    rcases List.mem_map.mp he with ⟨k, hk, rfl⟩
    cases hbk : by_hhmm_get (slotMetricRows db_metrics md from_loc to_loc
        (day_type_for_date d) operator
        (filtered_hhmms db_agg current_date from_loc to_loc operator
          (day_type_for_date d) min_services d arrive_minutes window_minutes)) k with
    | none =>
      simp only [hbk]
      constructor
      · intro hcov
        exact absurd hcov (by decide)
      · rintro ⟨m, hmdb, hmm⟩
        exfalso
        have hmem : m ∈ (slotMetricRows db_metrics md from_loc to_loc
            (day_type_for_date d) operator
            (filtered_hhmms db_agg current_date from_loc to_loc operator
              (day_type_for_date d) min_services d arrive_minutes
              window_minutes)).filter (fun r => r.dep_hhmm = k) := by
          rw [slotMetricRows_filter_eq db_metrics md from_loc to_loc
            (day_type_for_date d) operator _ k hk]
          exact List.mem_filter.mpr ⟨hmdb, hmm⟩
        unfold by_hhmm_get at hbk
        rw [List.getLast?_eq_none_iff] at hbk
        rw [hbk] at hmem
        exact List.not_mem_nil m hmem
    | some m =>
      simp only [hbk]
      constructor
      · intro _
        have hmem := getLast?_some_mem hbk
        rw [slotMetricRows_filter_eq db_metrics md from_loc to_loc
          (day_type_for_date d) operator _ k hk] at hmem
        have := List.mem_filter.mp hmem
        exact ⟨m, this.1, this.2⟩
      · intro _
        trivial
  · intro e he m hm
    rcases List.mem_map.mp he with ⟨k, hk, rfl⟩
    cases hbk : by_hhmm_get (slotMetricRows db_metrics md from_loc to_loc
        (day_type_for_date d) operator
        (filtered_hhmms db_agg current_date from_loc to_loc operator
          (day_type_for_date d) min_services d arrive_minutes window_minutes)) k with
    | none =>
      exfalso
      simp only [hbk] at hm
      unfold by_hhmm_get at hbk
      rw [slotMetricRows_filter_eq db_metrics md from_loc to_loc
        (day_type_for_date d) operator _ k hk, hm] at hbk
      exact Option.noConfusion hbk
    | some m2 =>
      simp only [hbk] at hm ⊢
      have : m2 = m := by
        unfold by_hhmm_get at hbk
        rw [slotMetricRows_filter_eq db_metrics md from_loc to_loc
          (day_type_for_date d) operator _ k hk, hm] at hbk
        exact (Option.some.inj hbk).symm
      subst this
      simp
  · intro e he hm
    rcases List.mem_map.mp he with ⟨k, hk, rfl⟩
    cases hbk : by_hhmm_get (slotMetricRows db_metrics md from_loc to_loc
        (day_type_for_date d) operator
        (filtered_hhmms db_agg current_date from_loc to_loc operator
          (day_type_for_date d) min_services d arrive_minutes window_minutes)) k with
    | some m2 =>
      exfalso
      simp only [hbk] at hm
      have hmem := getLast?_some_mem hbk
      rw [slotMetricRows_filter_eq db_metrics md from_loc to_loc
        (day_type_for_date d) operator _ k hk, hm] at hmem
      exact List.not_mem_nil m2 hmem
    | none =>
      simp only [hbk]
      simp

/-- C6 witness: the theorem applied to the spec's query scenario —
one candidate with a slot row and one without — yielding the in-order
candidate correspondence and the departure-time ordering of the
two-entry response. -/
theorem get_reliability_slot_and_baseline_witness :
    queryScenarioOut.map (fun e => e.dep_hhmm)
      = filtered_hhmms queryScenarioAgg 10 "RDG" "PAD" none (day_type_for_date 8) 10 8 540 60
    ∧ List.Pairwise (fun a b => a.departure_time ≤ b.departure_time) queryScenarioOut := by
  have h := get_reliability_slot_and_baseline queryScenarioAgg queryScenarioMetrics 10
    "RDG" "PAD" 8 540 none 60 10 queryScenarioOut 50 (by decide) (by decide)
    (by norm_num [get_reliability, queryScenarioAgg, queryScenarioMetrics, queryScenarioOut,
      filtered_hhmms, dep_hhmms, candidateAggRows, slotMetricRows, baselineRows, by_hhmm_get,
      sqlAvgOrZero, metricMatches, day_type_for_date, pyWeekday, depDt, hhmmToMinutes,
      dow_filter, operatorMatches, List.insertionSort, List.orderedInsert, List.filter,
      List.dedup, List.map, pyRound, round, Int.fract])
  exact ⟨h.1, h.2.1⟩

end RailWise
